import Mathlib

/-!
# Alarm controller (`src/main.cpp`)

A shallow embedding of the polling alarm controller.  The global variables
`alarmState` and `numberOfIncorrectCodes` and the three `DigitalOut` LEDs form
the state; every `DigitalIn` read is a field of `Inputs`; every
`uartUsb.write(buffer, size)` call is recorded as a `UartWrite` in the order
the code issues it.
-/

namespace AlarmSystem

/-! ## Data model -/

/-- One call `uartUsb.write(buffer, size)`: the string literal passed and the
byte count passed with it. -/
structure UartWrite where
  buffer : String
  size : Nat
deriving DecidableEq

/-- Levels of the seven `DigitalIn` pins (`true` is high / pressed). -/
structure Inputs where
  enterButton : Bool
  gasDetector : Bool
  overTempDetector : Bool
  aButton : Bool
  bButton : Bool
  cButton : Bool
  dButton : Bool
deriving DecidableEq

/-- The mutable state of the program: the two global variables and the levels
of the three `DigitalOut` pins.  `numberOfIncorrectCodes` is a C `int`; the
only arithmetic on it is `+= 1` under the guard `< 5`, so it never wraps and
is modelled as an `Int`. -/
structure System where
  alarmState : Bool
  numberOfIncorrectCodes : Int
  alarmLed : Bool
  incorrectCodeLed : Bool
  systemBlockedLed : Bool
deriving DecidableEq

/-- The globals as initialised at their declarations (`alarmState = OFF`,
`numberOfIncorrectCodes = 0`); a `DigitalOut` is constructed driving low. -/
def powerOn : System :=
  { alarmState := false, numberOfIncorrectCodes := 0,
    alarmLed := false, incorrectCodeLed := false, systemBlockedLed := false }

/-! ## Operations -/

/-- The function `outputsInit` (lines 73-78). -/
def outputsInit (s : System) : System :=
  { s with alarmLed := false, incorrectCodeLed := false, systemBlockedLed := false }

/-- The state when `main` enters its loop.  `inputsInit` only selects pull-down
mode on the input pins and touches no state. -/
def initialSystem : System := outputsInit powerOn

/-- The function `alarmActivationUpdate` (lines 80-86). -/
def alarmActivationUpdate (i : Inputs) (s : System) : System × List UartWrite :=
  let s1 := if i.gasDetector || i.overTempDetector then { s with alarmState := true } else s
  ({ s1 with alarmLed := s1.alarmState }, [])

/-- The function `alarmDeactivationUpdate` (lines 88-109). -/
def alarmDeactivationUpdate (i : Inputs) (s : System) : System × List UartWrite :=
  if s.numberOfIncorrectCodes < 5 then
    let s1 :=
      if i.aButton && i.bButton && i.cButton && i.dButton && !i.enterButton then
        { s with incorrectCodeLed := false }
      else s
    if i.enterButton && !s1.incorrectCodeLed && s1.alarmState then
      if i.aButton && i.bButton && !i.cButton && !i.dButton then
        ({ s1 with alarmState := false, numberOfIncorrectCodes := 0 },
          [⟨"Alarm deactivated successfully.\r\n", 32⟩])
      else
        ({ s1 with incorrectCodeLed := true,
                   numberOfIncorrectCodes := s1.numberOfIncorrectCodes + 1 },
          [⟨"Incorrect code attempt. Try again.\r\n", 39⟩])
    else (s1, [])
  else
    ({ s with systemBlockedLed := true },
      [⟨"System is blocked due to 5 incorrect attempts.\r\n", 48⟩])

/-- The function `resetSystem` (lines 168-175). -/
def resetSystem (s : System) : System :=
  { s with alarmState := false, numberOfIncorrectCodes := 0,
           alarmLed := false, incorrectCodeLed := false, systemBlockedLed := false }

/-- The function `availableCommands` (lines 159-166): five writes, no state. -/
def availableCommands : List UartWrite :=
  [ ⟨"Available commands:\r\n", 21⟩,
    ⟨"Press '1' to get the alarm state\r\n", 36⟩,
    ⟨"Press '2' to get the gas detector state\r\n", 42⟩,
    ⟨"Press '3' to get the over-temperature detector state\r\n", 58⟩,
    ⟨"Press 'r' to reset the system\r\n", 32⟩ ]

/-- The function `uartTask` (lines 111-157).  `rx` is `none` when
`uartUsb.readable()` is false and `some c` when one byte `c` is read. -/
def uartTask (rx : Option Char) (i : Inputs) (s : System) : System × List UartWrite :=
  match rx with
  | none => (s, [])
  | some receivedChar =>
    if receivedChar = '1' then
      if s.alarmState then (s, [⟨"The alarm is activated.\r\n", 26⟩])
      else (s, [⟨"The alarm is not activated.\r\n", 30⟩])
    else if receivedChar = '2' then
      if i.gasDetector then (s, [⟨"Gas detector is triggered.\r\n", 28⟩])
      else (s, [⟨"Gas detector is not triggered.\r\n", 32⟩])
    else if receivedChar = '3' then
      if i.overTempDetector then
        (s, [⟨"Over temperature detector is triggered.\r\n", 43⟩])
      else (s, [⟨"Over temperature detector is not triggered.\r\n", 47⟩])
    else if receivedChar = 'r' then
      (resetSystem s, [⟨"System has been reset.\r\n", 24⟩])
    else (s, availableCommands)

/-- The function `sendContinuousData` (lines 178-208), the ticker callback. -/
def sendContinuousData (i : Inputs) (s : System) : System × List UartWrite :=
  (s,
    [⟨"\x1b[2K\r", 4⟩, ⟨"\r\n", 2⟩]
    ++ (if s.alarmState then [⟨"The alarm is activated.\r\n", 26⟩]
        else [⟨"The alarm is not activated.\r\n", 30⟩])
    ++ (if i.gasDetector then
          [⟨"Gas detector is triggered.\r\n", 30⟩, ⟨"WARNING: GAS LEVEL TOO HIGH!\r\n", 32⟩]
        else [⟨"Gas detector is not triggered.\r\n", 32⟩])
    ++ (if i.overTempDetector then
          [⟨"Over temperature detector is triggered.\r\n", 43⟩,
           ⟨"WARNING: TEMPERATURE IS TOO HIGH!\r\n", 37⟩]
        else [⟨"Over temperature detector is not triggered.\r\n", 47⟩]))

/-! ## Execution -/

/-- One body of the `while (true)` loop of `main` (lines 54-58): the three
calls in order, their writes concatenated. -/
def mainLoopIteration (rx : Option Char) (i : Inputs) (s : System) :
    System × List UartWrite :=
  let r1 := alarmActivationUpdate i s
  let r2 := alarmDeactivationUpdate i r1.1
  let r3 := uartTask rx i r2.1
  (r3.1, r1.2 ++ r2.2 ++ r3.2)

/-- The two Alarm Engine calls of one loop body, without the interpreter. -/
def engineTick (i : Inputs) (s : System) : System × List UartWrite :=
  let r1 := alarmActivationUpdate i s
  let r2 := alarmDeactivationUpdate i r1.1
  (r2.1, r1.2 ++ r2.2)

/-- A single call the running program makes, with the pin levels (and, for
`uartTask`, the received byte) it sees.  The main loop issues `activation`,
`deactivation`, `uart` in turn; the ticker issues `reporter` at any point. -/
inductive Step where
  | activation (i : Inputs)
  | deactivation (i : Inputs)
  | uart (rx : Option Char) (i : Inputs)
  | reporter (i : Inputs)
deriving DecidableEq

/-- Effect of one step. -/
def Step.exec : Step → System → System × List UartWrite
  | .activation i, s => alarmActivationUpdate i s
  | .deactivation i, s => alarmDeactivationUpdate i s
  | .uart rx i, s => uartTask rx i s
  | .reporter i, s => sendContinuousData i s

/-- Run a sequence of steps, collecting the writes in order. -/
def runSteps : List Step → System → System × List UartWrite
  | [], s => (s, [])
  | st :: rest, s =>
    let r := st.exec s
    let r2 := runSteps rest r.1
    (r2.1, r.2 ++ r2.2)

/-- Run a sequence of whole loop bodies. -/
def runLoop : List (Option Char × Inputs) → System → System × List UartWrite
  | [], s => (s, [])
  | (rx, i) :: rest, s =>
    let r := mainLoopIteration rx i s
    let r2 := runLoop rest r.1
    (r2.1, r.2 ++ r2.2)

/-- Run a sequence of Alarm Engine ticks. -/
def runEngine : List Inputs → System → System × List UartWrite
  | [], s => (s, [])
  | i :: rest, s =>
    let r := engineTick i s
    let r2 := runEngine rest r.1
    (r2.1, r.2 ++ r2.2)

/-- A state is reachable when some sequence of calls leads to it from the
state in which `main` enters its loop. -/
def Reachable (s : System) : Prop :=
  ∃ steps : List Step, (runSteps steps initialSystem).1 = s

/-- All pins low. -/
def idle : Inputs :=
  { enterButton := false, gasDetector := false, overTempDetector := false,
    aButton := false, bButton := false, cButton := false, dButton := false }

/-- The invariant kept by every call: the counter stays within `0..5`, a
counter at the threshold has the incorrect-code LED lit, and the blocked LED is
lit only at the threshold. -/
def Inv (s : System) : Prop :=
  0 ≤ s.numberOfIncorrectCodes ∧ s.numberOfIncorrectCodes ≤ 5 ∧
  (5 ≤ s.numberOfIncorrectCodes → s.incorrectCodeLed = true) ∧
  (s.systemBlockedLed = true → s.numberOfIncorrectCodes = 5)

/-- The write issued on a failed attempt (line 102). -/
def incorrectAttemptWrite : UartWrite :=
  ⟨"Incorrect code attempt. Try again.\r\n", 39⟩

/-- A call during which enter is held and no reset command arrives: any
`alarmActivationUpdate`, an `alarmDeactivationUpdate` that reads enter pressed,
a `uartTask` whose byte (if any) is not `'r'`, or a reporter firing. -/
def Step.enterHeld : Step → Bool
  | .activation _ => true
  | .deactivation i => i.enterButton
  | .uart rx _ => rx != some 'r'
  | .reporter _ => true

/-- A call that is not a reset command: anything but a `uartTask` that
receives `'r'`. -/
def Step.noReset : Step → Bool
  | .uart rx _ => rx != some 'r'
  | _ => true

/-- A loop body in which enter is pressed with a digit pattern other than the
valid code, and no reset command arrives. -/
def wrongCodeTick (t : Option Char × Inputs) : Bool :=
  t.1 != some 'r' && t.2.enterButton &&
    !(t.2.aButton && t.2.bButton && !t.2.cButton && !t.2.dButton)

/-- A loop body in which all four digit buttons and enter are released, and no
reset command arrives. -/
def releasedTick (t : Option Char × Inputs) : Bool :=
  t.1 != some 'r' && !t.2.enterButton &&
    !t.2.aButton && !t.2.bButton && !t.2.cButton && !t.2.dButton

/-- A loop body in which all four digit buttons are pressed and enter is
released (the reading tested at line 91), and no reset command arrives. -/
def allDigitsTick (t : Option Char × Inputs) : Bool :=
  t.1 != some 'r' && !t.2.enterButton &&
    t.2.aButton && t.2.bButton && t.2.cButton && t.2.dButton

/-- The loop bodies of a list of two-tick cycles, in order. -/
def cycleTicks : List ((Option Char × Inputs) × (Option Char × Inputs)) →
    List (Option Char × Inputs)
  | [] => []
  | c :: rest => c.1 :: c.2 :: cycleTicks rest

/-- The char array a C string literal denotes: its characters followed by the
terminating NUL.  Every literal of the program is ASCII, one byte per
character. -/
def literalArray (lit : String) : List Char := lit.toList ++ [Char.ofNat 0]

/-- The bytes a call `uartUsb.write(buffer, size)` puts on the line: the first
`size` bytes stored at `buffer`.  A `size` beyond the literal's array reads
memory the literal does not own, which C leaves undefined: `none`. -/
def UartWrite.transmitted (w : UartWrite) : Option (List Char) :=
  if w.size ≤ (literalArray w.buffer).length then
    some ((literalArray w.buffer).take w.size)
  else none

/-- Whether a call is a firing of the ticker callback. -/
def Step.isReporter : Step → Bool
  | .reporter _ => true
  | _ => false

/-- A call sequence that drives the program into lockout: the gas detector
arms the alarm, then five times a wrong code with enter followed by all four
digits with enter up, then one more deactivation call. -/
def lockoutSteps : List Step :=
  [.activation { idle with gasDetector := true }]
  ++ (List.replicate 5
        [Step.deactivation { idle with enterButton := true, cButton := true },
         Step.deactivation { idle with aButton := true, bButton := true, cButton := true,
                                       dButton := true }]).flatten
  ++ [.deactivation idle]

/-! ## Shared lemmas -/

theorem inv_initialSystem : Inv initialSystem := by
  simp [Inv, initialSystem, outputsInit, powerOn]

theorem inv_alarmActivationUpdate (i : Inputs) (s : System) (h : Inv s) :
    Inv (alarmActivationUpdate i s).1 := by
  obtain ⟨h0, h5, hl, hb⟩ := h
  unfold alarmActivationUpdate
  split_ifs <;> exact ⟨h0, h5, hl, hb⟩

theorem inv_alarmDeactivationUpdate (i : Inputs) (s : System) (h : Inv s) :
    Inv (alarmDeactivationUpdate i s).1 := by
  obtain ⟨as, n, al, il, bl⟩ := s
  obtain ⟨e, g, t, a, b, c, d⟩ := i
  simp only [Inv] at h
  obtain ⟨h0, h5, hl, hb⟩ := h
  by_cases hn : n < 5
  · have hbl : bl = false := by
      cases bl
      · rfl
      · have := hb rfl
        omega
    subst hbl
    cases a <;> cases b <;> cases c <;> cases d <;> cases e <;> cases il <;> cases as <;>
      simp [alarmDeactivationUpdate, Inv, hn] <;> omega
  · have h5' : n = 5 := by omega
    have hil : il = true := hl (by omega)
    subst h5' hil
    simp [alarmDeactivationUpdate, Inv]

theorem inv_uartTask (rx : Option Char) (i : Inputs) (s : System) (h : Inv s) :
    Inv (uartTask rx i s).1 := by
  unfold uartTask
  cases rx with
  | none => exact h
  | some c =>
    simp only
    split_ifs <;> first | exact h | simp [Inv, resetSystem]

theorem inv_exec (st : Step) (s : System) (h : Inv s) : Inv (st.exec s).1 := by
  cases st with
  | activation i => exact inv_alarmActivationUpdate i s h
  | deactivation i => exact inv_alarmDeactivationUpdate i s h
  | uart rx i => exact inv_uartTask rx i s h
  | reporter i => exact h

theorem inv_runSteps (steps : List Step) (s : System) (h : Inv s) :
    Inv (runSteps steps s).1 := by
  induction steps generalizing s with
  | nil => exact h
  | cons st rest ih => exact ih _ (inv_exec st s h)

theorem inv_of_reachable (s : System) (h : Reachable s) : Inv s := by
  obtain ⟨steps, rfl⟩ := h
  exact inv_runSteps steps _ inv_initialSystem

theorem runSteps_append_fst (xs ys : List Step) (s : System) :
    (runSteps (xs ++ ys) s).1 = (runSteps ys (runSteps xs s).1).1 := by
  induction xs generalizing s with
  | nil => rfl
  | cons st rest ih => exact ih _

theorem reachable_exec (st : Step) (s : System) (h : Reachable s) :
    Reachable (st.exec s).1 := by
  obtain ⟨steps, rfl⟩ := h
  exact ⟨steps ++ [st], by rw [runSteps_append_fst]; rfl⟩

/-- A whole loop body keeps a state reachable. -/
theorem reachable_mainLoopIteration (rx : Option Char) (i : Inputs) (s : System)
    (h : Reachable s) : Reachable (mainLoopIteration rx i s).1 :=
  reachable_exec (.uart rx i) _
    (reachable_exec (.deactivation i) _ (reachable_exec (.activation i) _ h))

/-! ## Code entry -/

/-- C1: in every reachable state that is Armed with the incorrect-code LED
off, `alarmDeactivationUpdate` called with enter pressed and the digit buttons
at (pressed, pressed, released, released) leaves `alarmState` Disarmed and
`numberOfIncorrectCodes` equal to 0. -/
theorem valid_code_disarms (s : System) (hr : Reachable s) (i : Inputs)
    (harmed : s.alarmState = true) (hled : s.incorrectCodeLed = false)
    (he : i.enterButton = true) (ha : i.aButton = true) (hb : i.bButton = true)
    (hc : i.cButton = false) (hd : i.dButton = false) :
    (alarmDeactivationUpdate i s).1.alarmState = false ∧
    (alarmDeactivationUpdate i s).1.numberOfIncorrectCodes = 0 := by
  obtain ⟨_, _, hl, _⟩ := inv_of_reachable s hr
  have hn : s.numberOfIncorrectCodes < 5 := by
    by_contra hge
    have := hl (by omega)
    simp [hled] at this
  simp [alarmDeactivationUpdate, hn, harmed, hled, he, ha, hb, hc, hd]

/-- Witness for C1: the state reached when the gas detector goes high for one
activation call. -/
theorem valid_code_disarms_witness :
    Reachable (runSteps [.activation { idle with gasDetector := true }] initialSystem).1 ∧
    (alarmDeactivationUpdate
        { idle with enterButton := true, aButton := true, bButton := true }
        (runSteps [.activation { idle with gasDetector := true }] initialSystem).1).1.alarmState
      = false ∧
    (alarmDeactivationUpdate
        { idle with enterButton := true, aButton := true, bButton := true }
        (runSteps [.activation { idle with gasDetector := true }]
          initialSystem).1).1.numberOfIncorrectCodes = 0 :=
  ⟨⟨_, rfl⟩,
    valid_code_disarms _ ⟨_, rfl⟩
      { idle with enterButton := true, aButton := true, bButton := true }
      rfl rfl rfl rfl rfl rfl rfl⟩

/-- C2: in every reachable state that is Armed with the incorrect-code LED off,
for every button reading with enter pressed whose digit levels are not exactly
(pressed, pressed, released, released), `alarmDeactivationUpdate` increases
`numberOfIncorrectCodes` by exactly 1, turns the incorrect-code LED on, leaves
`alarmState` Armed, and issues the incorrect-attempt write. -/
theorem wrong_code_registers (s : System) (hr : Reachable s) (i : Inputs)
    (harmed : s.alarmState = true) (hled : s.incorrectCodeLed = false)
    (he : i.enterButton = true)
    (hcode : ¬ (i.aButton = true ∧ i.bButton = true ∧ i.cButton = false ∧ i.dButton = false)) :
    (alarmDeactivationUpdate i s).1.numberOfIncorrectCodes = s.numberOfIncorrectCodes + 1 ∧
    (alarmDeactivationUpdate i s).1.incorrectCodeLed = true ∧
    (alarmDeactivationUpdate i s).1.alarmState = true ∧
    (alarmDeactivationUpdate i s).2 = [⟨"Incorrect code attempt. Try again.\r\n", 39⟩] := by
  obtain ⟨_, _, hl, _⟩ := inv_of_reachable s hr
  have hn : s.numberOfIncorrectCodes < 5 := by
    by_contra hge
    have := hl (by omega)
    simp [hled] at this
  have hcode' : (i.aButton && i.bButton && !i.cButton && !i.dButton) = false := by
    cases ha : i.aButton <;> cases hb : i.bButton <;> cases hc : i.cButton <;>
      cases hd : i.dButton <;> simp_all
  simp [alarmDeactivationUpdate, hn, harmed, hled, he, hcode']

/-- Witness for C2: Armed by the gas detector, then enter with no digit held. -/
theorem wrong_code_registers_witness :
    (alarmDeactivationUpdate { idle with enterButton := true }
        (runSteps [.activation { idle with gasDetector := true }]
          initialSystem).1).1.numberOfIncorrectCodes = 0 + 1 ∧
    (alarmDeactivationUpdate { idle with enterButton := true }
        (runSteps [.activation { idle with gasDetector := true }]
          initialSystem).1).1.incorrectCodeLed = true ∧
    (alarmDeactivationUpdate { idle with enterButton := true }
        (runSteps [.activation { idle with gasDetector := true }]
          initialSystem).1).1.alarmState = true ∧
    (alarmDeactivationUpdate { idle with enterButton := true }
        (runSteps [.activation { idle with gasDetector := true }] initialSystem).1).2
      = [⟨"Incorrect code attempt. Try again.\r\n", 39⟩] :=
  wrong_code_registers _ ⟨_, rfl⟩ { idle with enterButton := true } rfl rfl rfl (by decide)

/-- C3: in every state with `numberOfIncorrectCodes >= 5`, for every button
reading, `alarmDeactivationUpdate` leaves `alarmState`, `numberOfIncorrectCodes`
and the incorrect-code LED unchanged, leaves the system-blocked LED on, and
issues the system-blocked write on that very call. -/
theorem blocked_ignores_buttons (s : System) (i : Inputs)
    (hn : 5 ≤ s.numberOfIncorrectCodes) :
    (alarmDeactivationUpdate i s).1.alarmState = s.alarmState ∧
    (alarmDeactivationUpdate i s).1.numberOfIncorrectCodes = s.numberOfIncorrectCodes ∧
    (alarmDeactivationUpdate i s).1.incorrectCodeLed = s.incorrectCodeLed ∧
    (alarmDeactivationUpdate i s).1.systemBlockedLed = true ∧
    (alarmDeactivationUpdate i s).2
      = [⟨"System is blocked due to 5 incorrect attempts.\r\n", 48⟩] := by
  have hn' : ¬ s.numberOfIncorrectCodes < 5 := by omega
  simp [alarmDeactivationUpdate, hn']

/-- Witness for C3: counter at 5, Armed, enter pressed with the valid code. -/
theorem blocked_ignores_buttons_witness :
    (alarmDeactivationUpdate { idle with enterButton := true, aButton := true, bButton := true }
        ⟨true, 5, true, true, false⟩).1.alarmState = true ∧
    (alarmDeactivationUpdate { idle with enterButton := true, aButton := true, bButton := true }
        ⟨true, 5, true, true, false⟩).1.numberOfIncorrectCodes = 5 ∧
    (alarmDeactivationUpdate { idle with enterButton := true, aButton := true, bButton := true }
        ⟨true, 5, true, true, false⟩).1.incorrectCodeLed = true ∧
    (alarmDeactivationUpdate { idle with enterButton := true, aButton := true, bButton := true }
        ⟨true, 5, true, true, false⟩).1.systemBlockedLed = true ∧
    (alarmDeactivationUpdate { idle with enterButton := true, aButton := true, bButton := true }
        ⟨true, 5, true, true, false⟩).2
      = [⟨"System is blocked due to 5 incorrect attempts.\r\n", 48⟩] :=
  blocked_ignores_buttons ⟨true, 5, true, true, false⟩
    { idle with enterButton := true, aButton := true, bButton := true } (by decide)

/-! ## Activation and reset -/

/-- C4: for every state and sensor levels, `alarmActivationUpdate` yields
`alarmState` Armed when the gas or the over-temperature input is high and
leaves it unchanged when both are low; the alarm LED then equals the resulting
`alarmState`; the counter and the other two LEDs are unchanged. -/
theorem activation_latches_and_mirrors (s : System) (i : Inputs) :
    (alarmActivationUpdate i s).1.alarmState
      = (if i.gasDetector = true ∨ i.overTempDetector = true then true else s.alarmState) ∧
    (alarmActivationUpdate i s).1.alarmLed = (alarmActivationUpdate i s).1.alarmState ∧
    (alarmActivationUpdate i s).1.numberOfIncorrectCodes = s.numberOfIncorrectCodes ∧
    (alarmActivationUpdate i s).1.incorrectCodeLed = s.incorrectCodeLed ∧
    (alarmActivationUpdate i s).1.systemBlockedLed = s.systemBlockedLed := by
  cases hg : i.gasDetector <;> cases ht : i.overTempDetector <;>
    simp [alarmActivationUpdate, hg, ht]

/-- C6: for every state, `resetSystem` yields Disarmed, counter 0 and all
three LEDs off, and applying it twice equals applying it once. -/
theorem resetSystem_clears_and_idempotent (s : System) :
    resetSystem s = ⟨false, 0, false, false, false⟩ ∧
    resetSystem (resetSystem s) = resetSystem s :=
  ⟨rfl, rfl⟩

/-! ## Latch -/

theorem engineTick_keeps_armed (s : System) (i : Inputs) (harmed : s.alarmState = true)
    (hcode : ¬ (i.enterButton = true ∧ i.aButton = true ∧ i.bButton = true ∧
      i.cButton = false ∧ i.dButton = false)) :
    (engineTick i s).1.alarmState = true := by
  obtain ⟨as, n, al, il, bl⟩ := s
  obtain ⟨e, g, t, a, b, c, d⟩ := i
  simp only at harmed
  subst harmed
  by_cases hn : n < 5
  · cases a <;> cases b <;> cases c <;> cases d <;> cases e <;> cases il <;> cases g <;>
      cases t <;> simp [engineTick, alarmActivationUpdate, alarmDeactivationUpdate, hn] at hcode ⊢
  · cases g <;> cases t <;>
      simp [engineTick, alarmActivationUpdate, alarmDeactivationUpdate, hn]

/-- C5: from every Armed state, one Alarm Engine tick (`alarmActivationUpdate`
then `alarmDeactivationUpdate`) leaves `alarmState` Armed unless enter is
pressed with the digit buttons at (pressed, pressed, released, released), for
all sensor levels; hence any number of such ticks, none of which carries that
reading, leaves it Armed. -/
theorem armed_is_latched (s : System) (harmed : s.alarmState = true) :
    (∀ i : Inputs,
      ¬ (i.enterButton = true ∧ i.aButton = true ∧ i.bButton = true ∧
          i.cButton = false ∧ i.dButton = false) →
      (alarmDeactivationUpdate i (alarmActivationUpdate i s).1).1.alarmState = true) ∧
    (∀ ticks : List Inputs,
      (∀ i ∈ ticks, ¬ (i.enterButton = true ∧ i.aButton = true ∧ i.bButton = true ∧
          i.cButton = false ∧ i.dButton = false)) →
      (runEngine ticks s).1.alarmState = true) := by
  refine ⟨fun i hcode => engineTick_keeps_armed s i harmed hcode, ?_⟩
  intro ticks
  induction ticks generalizing s with
  | nil => intro _; exact harmed
  | cons i rest ih =>
    intro h
    exact ih (engineTick i s).1
      (engineTick_keeps_armed s i harmed (h i (List.mem_cons_self _ _)))
      (fun j hj => h j (List.mem_cons_of_mem _ hj))

/-- Witness for C5: Armed, then three ticks with both sensors low and wrong or
no button activity. -/
theorem armed_is_latched_witness :
    (alarmDeactivationUpdate idle
        (alarmActivationUpdate idle ⟨true, 0, true, false, false⟩).1).1.alarmState = true ∧
    (runEngine [idle, { idle with enterButton := true, dButton := true }, idle]
        ⟨true, 0, true, false, false⟩).1.alarmState = true :=
  ⟨(armed_is_latched ⟨true, 0, true, false, false⟩ rfl).1 idle (by decide),
   (armed_is_latched ⟨true, 0, true, false, false⟩ rfl).2
      [idle, { idle with enterButton := true, dButton := true }, idle] (by decide)⟩

/-! ## Clearing the incorrect-code LED -/

/-- C7 as stated fails: with the counter below 5 and the incorrect-code LED on,
a call with all four digit buttons released and enter not pressed leaves the
LED on, while a call with all four digit buttons pressed and enter not pressed
(a different reading) turns it off. -/
theorem released_buttons_do_not_clear_led :
    (⟨true, 1, true, true, false⟩ : System).numberOfIncorrectCodes < 5 ∧
    (⟨true, 1, true, true, false⟩ : System).incorrectCodeLed = true ∧
    (alarmDeactivationUpdate
        { enterButton := false, gasDetector := false, overTempDetector := false,
          aButton := false, bButton := false, cButton := false, dButton := false }
        ⟨true, 1, true, true, false⟩).1.incorrectCodeLed = true ∧
    (alarmDeactivationUpdate
        { enterButton := false, gasDetector := false, overTempDetector := false,
          aButton := true, bButton := true, cButton := true, dButton := true }
        ⟨true, 1, true, true, false⟩).1.incorrectCodeLed = false := by
  decide

/-- C7 amended: in every state with `numberOfIncorrectCodes < 5` and the
incorrect-code LED on, `alarmDeactivationUpdate` turns the LED off when all
four digit buttons are pressed and enter is not pressed, and only under that
reading. -/
theorem led_cleared_iff_all_digits_pressed (s : System) (i : Inputs)
    (hn : s.numberOfIncorrectCodes < 5) (hled : s.incorrectCodeLed = true) :
    (alarmDeactivationUpdate i s).1.incorrectCodeLed = false ↔
      (i.aButton = true ∧ i.bButton = true ∧ i.cButton = true ∧ i.dButton = true ∧
        i.enterButton = false) := by
  obtain ⟨as, n, al, il, bl⟩ := s
  obtain ⟨e, g, t, a, b, c, d⟩ := i
  simp only at hn hled
  subst hled
  cases a <;> cases b <;> cases c <;> cases d <;> cases e <;>
    simp [alarmDeactivationUpdate, hn]

/-- Witness for C7 amended: counter 1, LED on, all four digits pressed. -/
theorem led_cleared_iff_all_digits_pressed_witness :
    (alarmDeactivationUpdate
        { idle with aButton := true, bButton := true, cButton := true, dButton := true }
        ⟨true, 1, true, true, false⟩).1.incorrectCodeLed = false :=
  (led_cleared_iff_all_digits_pressed ⟨true, 1, true, true, false⟩
    { idle with aButton := true, bButton := true, cButton := true, dButton := true }
    (by decide) rfl).2 (by decide)

/-! ## Counter range -/

/-- C8: in every state reachable from the initial state by any sequence of
`alarmActivationUpdate`, `alarmDeactivationUpdate`, `uartTask` (with any
optional received byte) and `sendContinuousData` calls, for any inputs,
`0 <= numberOfIncorrectCodes <= 5`. -/
theorem counter_in_range (s : System) (hr : Reachable s) :
    0 ≤ s.numberOfIncorrectCodes ∧ s.numberOfIncorrectCodes ≤ 5 :=
  ⟨(inv_of_reachable s hr).1, (inv_of_reachable s hr).2.1⟩

/-- Witness for C8: one loop body with a wrong code entered, a reporter firing,
then a second loop body. -/
theorem counter_in_range_witness :
    0 ≤ (runSteps
          [.activation { idle with gasDetector := true },
           .deactivation { idle with gasDetector := true, enterButton := true },
           .uart (some '1') { idle with gasDetector := true },
           .reporter idle,
           .activation idle, .deactivation idle, .uart none idle]
          initialSystem).1.numberOfIncorrectCodes ∧
    (runSteps
          [.activation { idle with gasDetector := true },
           .deactivation { idle with gasDetector := true, enterButton := true },
           .uart (some '1') { idle with gasDetector := true },
           .reporter idle,
           .activation idle, .deactivation idle, .uart none idle]
          initialSystem).1.numberOfIncorrectCodes ≤ 5 :=
  counter_in_range _ ⟨_, rfl⟩

/-! ## Held enter button -/

theorem uartTask_no_reset (rx : Option Char) (i : Inputs) (s : System)
    (h : rx ≠ some 'r') :
    (uartTask rx i s).1 = s ∧ (uartTask rx i s).2.count incorrectAttemptWrite = 0 := by
  cases rx with
  | none => exact ⟨rfl, rfl⟩
  | some c =>
    have hc : c ≠ 'r' := fun e => h (by rw [e])
    unfold uartTask
    simp only [hc, if_false]
    split_ifs <;>
      exact ⟨rfl, by simp +decide [incorrectAttemptWrite, availableCommands]⟩

theorem sendContinuousData_quiet (i : Inputs) (s : System) :
    (sendContinuousData i s).2.count incorrectAttemptWrite = 0 := by
  obtain ⟨as, n, al, il, bl⟩ := s
  obtain ⟨e, g, t, a, b, c, d⟩ := i
  cases as <;> cases g <;> cases t <;>
    simp +decide [sendContinuousData, incorrectAttemptWrite]

/-- With the incorrect-code LED on, a held-enter call changes neither the
counter nor that LED and registers nothing. -/
theorem enterHeld_exec_led_on (st : Step) (s : System) (hheld : st.enterHeld = true)
    (hled : s.incorrectCodeLed = true) :
    (st.exec s).1.numberOfIncorrectCodes = s.numberOfIncorrectCodes ∧
    (st.exec s).1.incorrectCodeLed = true ∧
    (st.exec s).2.count incorrectAttemptWrite = 0 := by
  cases st with
  | activation i =>
    obtain ⟨as, n, al, il, bl⟩ := s
    simp only at hled
    subst hled
    cases hg : i.gasDetector <;> cases ht : i.overTempDetector <;>
      simp [Step.exec, alarmActivationUpdate, hg, ht]
  | deactivation i =>
    obtain ⟨as, n, al, il, bl⟩ := s
    obtain ⟨e, g, t, a, b, c, d⟩ := i
    simp only [Step.enterHeld] at hheld
    simp only at hled
    subst hheld hled
    by_cases hn : n < 5
    · simp [Step.exec, alarmDeactivationUpdate, hn]
    · simp +decide [Step.exec, alarmDeactivationUpdate, hn, incorrectAttemptWrite]
  | uart rx i =>
    have hrx : rx ≠ some 'r' := by simpa [Step.enterHeld] using hheld
    obtain ⟨h1, h2⟩ := uartTask_no_reset rx i s hrx
    simp only [Step.exec]
    rw [h1]
    exact ⟨rfl, hled, h2⟩
  | reporter i => exact ⟨rfl, hled, sendContinuousData_quiet i s⟩

/-- With the incorrect-code LED off, a held-enter call either registers nothing
(counter kept or zeroed, LED still off) or registers one failed attempt
(counter + 1, LED on). -/
theorem enterHeld_exec_led_off (st : Step) (s : System) (hheld : st.enterHeld = true)
    (hled : s.incorrectCodeLed = false) :
    ((st.exec s).1.incorrectCodeLed = false ∧
      ((st.exec s).1.numberOfIncorrectCodes = s.numberOfIncorrectCodes ∨
        (st.exec s).1.numberOfIncorrectCodes = 0) ∧
      (st.exec s).2.count incorrectAttemptWrite = 0) ∨
    ((st.exec s).1.incorrectCodeLed = true ∧
      (st.exec s).1.numberOfIncorrectCodes = s.numberOfIncorrectCodes + 1 ∧
      (st.exec s).2.count incorrectAttemptWrite = 1) := by
  cases st with
  | activation i =>
    obtain ⟨as, n, al, il, bl⟩ := s
    simp only at hled
    subst hled
    cases hg : i.gasDetector <;> cases ht : i.overTempDetector <;>
      simp [Step.exec, alarmActivationUpdate, hg, ht]
  | deactivation i =>
    obtain ⟨as, n, al, il, bl⟩ := s
    obtain ⟨e, g, t, a, b, c, d⟩ := i
    simp only [Step.enterHeld] at hheld
    simp only at hled
    subst hheld hled
    by_cases hn : n < 5
    · cases a <;> cases b <;> cases c <;> cases d <;> cases as <;>
        simp +decide [Step.exec, alarmDeactivationUpdate, hn, incorrectAttemptWrite]
    · simp +decide [Step.exec, alarmDeactivationUpdate, hn, incorrectAttemptWrite]
  | uart rx i =>
    have hrx : rx ≠ some 'r' := by simpa [Step.enterHeld] using hheld
    obtain ⟨h1, h2⟩ := uartTask_no_reset rx i s hrx
    simp only [Step.exec]
    rw [h1]
    exact Or.inl ⟨hled, Or.inl rfl, h2⟩
  | reporter i => exact Or.inl ⟨hled, Or.inl rfl, sendContinuousData_quiet i s⟩

theorem enterHeld_run_led_on (steps : List Step) (s : System)
    (hheld : ∀ st ∈ steps, st.enterHeld = true) (hled : s.incorrectCodeLed = true) :
    (runSteps steps s).1.numberOfIncorrectCodes = s.numberOfIncorrectCodes ∧
    (runSteps steps s).2.count incorrectAttemptWrite = 0 := by
  induction steps generalizing s with
  | nil => exact ⟨rfl, rfl⟩
  | cons st rest ih =>
    obtain ⟨h1, h2, h3⟩ := enterHeld_exec_led_on st s (hheld st (List.mem_cons_self _ _)) hled
    obtain ⟨k1, k2⟩ := ih (st.exec s).1 (fun x hx => hheld x (List.mem_cons_of_mem _ hx)) h2
    refine ⟨?_, ?_⟩
    · show (runSteps rest (st.exec s).1).1.numberOfIncorrectCodes = _
      rw [k1, h1]
    · show ((st.exec s).2 ++ (runSteps rest (st.exec s).1).2).count incorrectAttemptWrite = 0
      rw [List.count_append, h3, k2]

theorem enterHeld_run_led_off (steps : List Step) (s : System)
    (hheld : ∀ st ∈ steps, st.enterHeld = true) (hled : s.incorrectCodeLed = false) :
    (runSteps steps s).1.numberOfIncorrectCodes ≤ max s.numberOfIncorrectCodes 0 + 1 ∧
    (runSteps steps s).2.count incorrectAttemptWrite ≤ 1 := by
  induction steps generalizing s with
  | nil =>
    refine ⟨?_, Nat.zero_le _⟩
    show s.numberOfIncorrectCodes ≤ _
    have := le_max_left s.numberOfIncorrectCodes 0
    omega
  | cons st rest ih =>
    have hrest : ∀ x ∈ rest, x.enterHeld = true :=
      fun x hx => hheld x (List.mem_cons_of_mem _ hx)
    show (runSteps rest (st.exec s).1).1.numberOfIncorrectCodes ≤ _ ∧
      ((st.exec s).2 ++ (runSteps rest (st.exec s).1).2).count incorrectAttemptWrite ≤ 1
    rw [List.count_append]
    rcases enterHeld_exec_led_off st s (hheld st (List.mem_cons_self _ _)) hled with
      ⟨h1, h2, h3⟩ | ⟨h1, h2, h3⟩
    · obtain ⟨k1, k2⟩ := ih (st.exec s).1 hrest h1
      refine ⟨?_, by omega⟩
      have hm : max (st.exec s).1.numberOfIncorrectCodes 0 ≤ max s.numberOfIncorrectCodes 0 := by
        rcases h2 with h2 | h2
        · rw [h2]
        · rw [h2]; simp
      omega
    · obtain ⟨k1, k2⟩ := enterHeld_run_led_on rest (st.exec s).1 hrest h1
      refine ⟨?_, by omega⟩
      have := le_max_left s.numberOfIncorrectCodes 0
      omega

/-- From a counter that is not negative, calls with enter held and no reset
raise the counter by at most 1 and issue at most one incorrect-attempt write. -/
theorem enterHeld_run_bound (s : System) (steps : List Step)
    (hheld : ∀ st ∈ steps, st.enterHeld = true)
    (h0 : 0 ≤ s.numberOfIncorrectCodes) :
    (runSteps steps s).1.numberOfIncorrectCodes ≤ s.numberOfIncorrectCodes + 1 ∧
    (runSteps steps s).2.count incorrectAttemptWrite ≤ 1 := by
  cases hled : s.incorrectCodeLed with
  | true =>
    obtain ⟨k1, k2⟩ := enterHeld_run_led_on steps s hheld hled
    exact ⟨by omega, by omega⟩
  | false =>
    obtain ⟨k1, k2⟩ := enterHeld_run_led_off steps s hheld hled
    rw [max_eq_left h0] at k1
    exact ⟨k1, k2⟩

/-- C9: a held enter button registers at most one failed attempt.  From every
starting state the program can be in, over every sequence of calls without
reset in which every `alarmDeactivationUpdate` reads enter pressed, whatever
the digit buttons and sensors do, `numberOfIncorrectCodes` at the end exceeds
its starting value by at most 1, and at most one incorrect-attempt write is
issued. -/
theorem held_enter_registers_at_most_once (s : System) (hr : Reachable s)
    (steps : List Step) (hheld : ∀ st ∈ steps, st.enterHeld = true) :
    (runSteps steps s).1.numberOfIncorrectCodes ≤ s.numberOfIncorrectCodes + 1 ∧
    (runSteps steps s).2.count ⟨"Incorrect code attempt. Try again.\r\n", 39⟩ ≤ 1 :=
  enterHeld_run_bound s steps hheld (inv_of_reachable s hr).1

/-- Witness for C9: Armed by the gas detector at counter 0; the valid code is
entered, the gas detector re-arms, and changing wrong codes follow, enter held
throughout. -/
theorem held_enter_registers_at_most_once_witness :
    Reachable (runSteps [.activation { idle with gasDetector := true }] initialSystem).1 ∧
    (∀ st ∈
        [Step.deactivation { idle with enterButton := true, aButton := true, bButton := true },
         .activation { idle with gasDetector := true },
         .deactivation { idle with enterButton := true, aButton := true },
         .activation idle,
         .deactivation { idle with enterButton := true, dButton := true }],
      st.enterHeld = true) ∧
    (runSteps
        [.deactivation { idle with enterButton := true, aButton := true, bButton := true },
         .activation { idle with gasDetector := true },
         .deactivation { idle with enterButton := true, aButton := true },
         .activation idle,
         .deactivation { idle with enterButton := true, dButton := true }]
        (runSteps [.activation { idle with gasDetector := true }]
          initialSystem).1).1.numberOfIncorrectCodes
      ≤ (runSteps [.activation { idle with gasDetector := true }]
          initialSystem).1.numberOfIncorrectCodes + 1 ∧
    (runSteps
        [.deactivation { idle with enterButton := true, aButton := true, bButton := true },
         .activation { idle with gasDetector := true },
         .deactivation { idle with enterButton := true, aButton := true },
         .activation idle,
         .deactivation { idle with enterButton := true, dButton := true }]
        (runSteps [.activation { idle with gasDetector := true }]
          initialSystem).1).2.count ⟨"Incorrect code attempt. Try again.\r\n", 39⟩
      ≤ 1 :=
  ⟨⟨_, rfl⟩, by decide,
    held_enter_registers_at_most_once _ ⟨_, rfl⟩ _ (by decide)⟩

/-! ## Lockout scenario -/

theorem runLoop_append_fst (xs ys : List (Option Char × Inputs)) (s : System) :
    (runLoop (xs ++ ys) s).1 = (runLoop ys (runLoop xs s).1).1 := by
  induction xs generalizing s with
  | nil => rfl
  | cons t rest ih => exact ih _

/-- One wrong-code loop body from an Armed state with the LED off and the
counter below 5. -/
theorem wrongCodeTick_effect (t : Option Char × Inputs) (s : System)
    (ht : wrongCodeTick t = true) (harmed : s.alarmState = true)
    (hled : s.incorrectCodeLed = false) (hn : s.numberOfIncorrectCodes < 5) :
    (mainLoopIteration t.1 t.2 s).1 =
      { s with alarmLed := true, incorrectCodeLed := true,
               numberOfIncorrectCodes := s.numberOfIncorrectCodes + 1 } := by
  obtain ⟨rx, i⟩ := t
  obtain ⟨as, n, al, il, bl⟩ := s
  obtain ⟨e, g, t, a, b, c, d⟩ := i
  simp only at harmed hled hn
  subst harmed hled
  simp only [wrongCodeTick, Bool.and_eq_true, bne_iff_ne, ne_eq] at ht
  obtain ⟨⟨hrx, he⟩, hcode⟩ := ht
  subst he
  have hu := (uartTask_no_reset rx ⟨true, g, t, a, b, c, d⟩
    (alarmDeactivationUpdate ⟨true, g, t, a, b, c, d⟩
      (alarmActivationUpdate ⟨true, g, t, a, b, c, d⟩ ⟨true, n, al, false, bl⟩).1).1 hrx).1
  simp only [mainLoopIteration]
  rw [hu]
  cases a <;> cases b <;> cases c <;> cases d <;> cases g <;> cases t <;>
    simp [alarmActivationUpdate, alarmDeactivationUpdate, hn] at hcode ⊢

/-- One all-digits loop body from an Armed state with the alarm LED on. -/
theorem allDigitsTick_effect (t : Option Char × Inputs) (s : System)
    (ht : allDigitsTick t = true) (harmed : s.alarmState = true)
    (hal : s.alarmLed = true) :
    (mainLoopIteration t.1 t.2 s).1 =
      if s.numberOfIncorrectCodes < 5 then { s with incorrectCodeLed := false }
      else { s with systemBlockedLed := true } := by
  obtain ⟨rx, i⟩ := t
  obtain ⟨as, n, al, il, bl⟩ := s
  obtain ⟨e, g, t, a, b, c, d⟩ := i
  simp only at harmed hal
  subst harmed hal
  simp only [allDigitsTick, Bool.and_eq_true, bne_iff_ne, ne_eq, Bool.not_eq_true'] at ht
  obtain ⟨⟨⟨⟨⟨hrx, he⟩, ha⟩, hb⟩, hc⟩, hd⟩ := ht
  subst he ha hb hc hd
  have hu := (uartTask_no_reset rx ⟨false, g, t, true, true, true, true⟩
    (alarmDeactivationUpdate ⟨false, g, t, true, true, true, true⟩
      (alarmActivationUpdate ⟨false, g, t, true, true, true, true⟩ ⟨true, n, true, il, bl⟩).1).1
    hrx).1
  simp only [mainLoopIteration]
  rw [hu]
  by_cases hn : n < 5 <;> cases g <;> cases t <;>
    simp [alarmActivationUpdate, alarmDeactivationUpdate, hn]

/-- Cycles of a wrong code followed by all four digits, as many as bring the
counter to 5: the last of them ends Armed, counter 5, all three LEDs on. -/
theorem cycles_reach_threshold
    (cycles : List ((Option Char × Inputs) × (Option Char × Inputs))) (s : System)
    (hcyc : ∀ c ∈ cycles, wrongCodeTick c.1 = true ∧ allDigitsTick c.2 = true)
    (harmed : s.alarmState = true) (hled : s.incorrectCodeLed = false)
    (hne : cycles ≠ []) (hn : s.numberOfIncorrectCodes + cycles.length = 5) :
    (runLoop (cycleTicks cycles) s).1 = ⟨true, 5, true, true, true⟩ := by
  induction cycles generalizing s with
  | nil => exact absurd rfl hne
  | cons c rest ih =>
    obtain ⟨hw, hc⟩ := hcyc c (List.mem_cons_self _ _)
    simp only [List.length_cons, Nat.cast_add, Nat.cast_one] at hn
    have h1 := wrongCodeTick_effect c.1 s hw harmed hled (by omega)
    have h2 := allDigitsTick_effect c.2 (mainLoopIteration c.1.1 c.1.2 s).1 hc
      (by rw [h1]; exact harmed) (by rw [h1])
    rw [h1] at h2
    show (runLoop (cycleTicks rest)
      (mainLoopIteration c.2.1 c.2.2 (mainLoopIteration c.1.1 c.1.2 s).1).1).1 = _
    cases rest with
    | nil =>
      have h4 : s.numberOfIncorrectCodes = 4 := by
        simp only [List.length_nil, Nat.cast_zero] at hn
        omega
      have hnot : ¬ (s.numberOfIncorrectCodes + 1 < 5) := by omega
      simp only [hnot, if_false] at h2
      rw [h1, h2]
      obtain ⟨as, n, al, il, bl⟩ := s
      simp only at harmed h4
      subst harmed h4
      rfl
    | cons c2 rest2 =>
      have hlt : s.numberOfIncorrectCodes + 1 < 5 := by
        simp only [List.length_cons, Nat.cast_add, Nat.cast_one] at hn
        omega
      simp only [hlt, if_true] at h2
      rw [h1, h2]
      exact ih _ (fun x hx => hcyc x (List.mem_cons_of_mem _ hx)) harmed rfl
        (List.cons_ne_nil _ _) (by simp only; omega)

/-- In an Armed state with the alarm LED and the blocked LED on and the counter
at 5 or more, no call other than a reset command changes anything. -/
theorem locked_exec_fixed (st : Step) (s : System) (hst : st.noReset = true)
    (harmed : s.alarmState = true) (hal : s.alarmLed = true)
    (hn : 5 ≤ s.numberOfIncorrectCodes) (hb : s.systemBlockedLed = true) :
    (st.exec s).1 = s := by
  cases st with
  | activation i =>
    obtain ⟨as, n, al, il, bl⟩ := s
    simp only at harmed hal
    subst harmed hal
    cases hg : i.gasDetector <;> cases ht : i.overTempDetector <;>
      simp [Step.exec, alarmActivationUpdate, hg, ht]
  | deactivation i =>
    obtain ⟨as, n, al, il, bl⟩ := s
    simp only at hn hb
    subst hb
    have hn' : ¬ n < 5 := by omega
    simp [Step.exec, alarmDeactivationUpdate, hn']
  | uart rx i =>
    exact (uartTask_no_reset rx i s (by simpa [Step.noReset] using hst)).1
  | reporter i => rfl

theorem locked_run_fixed (steps : List Step) (s : System)
    (hst : ∀ st ∈ steps, st.noReset = true)
    (harmed : s.alarmState = true) (hal : s.alarmLed = true)
    (hn : 5 ≤ s.numberOfIncorrectCodes) (hb : s.systemBlockedLed = true) :
    (runSteps steps s).1 = s := by
  induction steps with
  | nil => rfl
  | cons st rest ih =>
    show (runSteps rest (st.exec s).1).1 = s
    rw [locked_exec_fixed st s (hst st (List.mem_cons_self _ _)) harmed hal hn hb]
    exact ih (fun x hx => hst x (List.mem_cons_of_mem _ hx))

/-- C10 as stated fails: from Armed, counter 0, LED off, five cycles of a wrong
code with enter followed by a loop body with every button released, and one
further loop body, end with the counter at 1 and the blocked LED off. -/
theorem released_cycles_do_not_lock_out :
    (∀ c ∈ List.replicate 5
        (((none : Option Char), { idle with enterButton := true, dButton := true }),
         ((none : Option Char), idle)),
      wrongCodeTick c.1 = true ∧ releasedTick c.2 = true) ∧
    (runLoop
        (cycleTicks (List.replicate 5
          ((none, { idle with enterButton := true, dButton := true }), (none, idle)))
          ++ [(none, idle)])
        ⟨true, 0, true, false, false⟩).1.numberOfIncorrectCodes = 1 ∧
    (runLoop
        (cycleTicks (List.replicate 5
          ((none, { idle with enterButton := true, dButton := true }), (none, idle)))
          ++ [(none, idle)])
        ⟨true, 0, true, false, false⟩).1.systemBlockedLed = false := by
  decide

/-- C10 amended: from Armed, counter 0, incorrect-code LED off, with no reset
command, five cycles (one loop body with enter pressed and a digit pattern
other than the valid code, then one loop body with all four digit buttons
pressed and enter released) followed by one further loop body leave
`numberOfIncorrectCodes = 5` and the system-blocked LED on, and after any
further calls without reset every `alarmDeactivationUpdate` with enter pressed
changes no state. -/
theorem five_wrong_codes_lock_out (s : System)
    (harmed : s.alarmState = true) (hn : s.numberOfIncorrectCodes = 0)
    (hled : s.incorrectCodeLed = false)
    (cycles : List ((Option Char × Inputs) × (Option Char × Inputs)))
    (hlen : cycles.length = 5)
    (hcyc : ∀ c ∈ cycles, wrongCodeTick c.1 = true ∧ allDigitsTick c.2 = true)
    (last : Option Char × Inputs) (hlast : last.1 ≠ some 'r') :
    (runLoop (cycleTicks cycles ++ [last]) s).1.numberOfIncorrectCodes = 5 ∧
    (runLoop (cycleTicks cycles ++ [last]) s).1.systemBlockedLed = true ∧
    ∀ later : List Step, (∀ st ∈ later, st.noReset = true) →
      ∀ i : Inputs, i.enterButton = true →
        (alarmDeactivationUpdate i
            (runSteps later (runLoop (cycleTicks cycles ++ [last]) s).1).1).1
          = (runSteps later (runLoop (cycleTicks cycles ++ [last]) s).1).1 := by
  have hlocked := cycles_reach_threshold cycles s hcyc harmed hled
    (by intro h; rw [h] at hlen; exact absurd hlen (by decide))
    (by rw [hn, hlen]; rfl)
  have hfinal : (runLoop (cycleTicks cycles ++ [last]) s).1
      = ⟨true, 5, true, true, true⟩ := by
    rw [runLoop_append_fst, hlocked]
    exact locked_run_fixed
      [.activation last.2, .deactivation last.2, .uart last.1 last.2]
      ⟨true, 5, true, true, true⟩
      (by
        intro st hst
        simp only [List.mem_cons, List.mem_singleton, List.not_mem_nil, or_false] at hst
        rcases hst with rfl | rfl | rfl
        · rfl
        · rfl
        · simpa [Step.noReset] using hlast)
      rfl rfl (by decide) rfl
  rw [hfinal]
  refine ⟨rfl, rfl, ?_⟩
  intro later hlater i _
  rw [locked_run_fixed later ⟨true, 5, true, true, true⟩ hlater rfl rfl (by decide) rfl]
  exact locked_exec_fixed (.deactivation i) ⟨true, 5, true, true, true⟩ rfl rfl rfl
    (by decide) rfl

/-- Witness for C10 amended: five cycles of (enter with only digit d, then all
four digits with enter up), one idle loop body, then a reporter firing and a
deactivation call with enter and the valid code. -/
theorem five_wrong_codes_lock_out_witness :
    (runLoop
        (cycleTicks (List.replicate 5
          ((none, { idle with enterButton := true, dButton := true }),
           (none, { idle with aButton := true, bButton := true, cButton := true,
                              dButton := true })))
          ++ [(none, idle)])
        ⟨true, 0, false, false, false⟩).1.numberOfIncorrectCodes = 5 ∧
    (runLoop
        (cycleTicks (List.replicate 5
          ((none, { idle with enterButton := true, dButton := true }),
           (none, { idle with aButton := true, bButton := true, cButton := true,
                              dButton := true })))
          ++ [(none, idle)])
        ⟨true, 0, false, false, false⟩).1.systemBlockedLed = true ∧
    (alarmDeactivationUpdate { idle with enterButton := true, aButton := true, bButton := true }
        (runSteps [.reporter idle]
          (runLoop
            (cycleTicks (List.replicate 5
              ((none, { idle with enterButton := true, dButton := true }),
               (none, { idle with aButton := true, bButton := true, cButton := true,
                                  dButton := true })))
              ++ [(none, idle)])
            ⟨true, 0, false, false, false⟩).1).1).1
      = (runSteps [.reporter idle]
          (runLoop
            (cycleTicks (List.replicate 5
              ((none, { idle with enterButton := true, dButton := true }),
               (none, { idle with aButton := true, bButton := true, cButton := true,
                                  dButton := true })))
              ++ [(none, idle)])
            ⟨true, 0, false, false, false⟩).1).1 :=
  have h := five_wrong_codes_lock_out ⟨true, 0, false, false, false⟩ rfl rfl rfl
    (List.replicate 5
      ((none, { idle with enterButton := true, dButton := true }),
       (none, { idle with aButton := true, bButton := true, cButton := true,
                          dButton := true })))
    rfl (by decide) (none, idle) (by decide)
  ⟨h.1, h.2.1,
    h.2.2 [.reporter idle] (by decide)
      { idle with enterButton := true, aButton := true, bButton := true } rfl⟩

/-! ## Guard of the attempt evaluation -/

/-- C11: for every state and button reading, if enter is not pressed, or
`alarmState` is Disarmed, or the incorrect-code LED is on at entry, then
`alarmDeactivationUpdate` leaves `alarmState` and `numberOfIncorrectCodes`
unchanged and issues neither the deactivated nor the incorrect-attempt write. -/
theorem no_evaluation_outside_guard (s : System) (i : Inputs)
    (h : i.enterButton = false ∨ s.alarmState = false ∨ s.incorrectCodeLed = true) :
    (alarmDeactivationUpdate i s).1.alarmState = s.alarmState ∧
    (alarmDeactivationUpdate i s).1.numberOfIncorrectCodes = s.numberOfIncorrectCodes ∧
    ∀ w ∈ (alarmDeactivationUpdate i s).2,
      w.buffer ≠ "Alarm deactivated successfully.\r\n" ∧
      w.buffer ≠ "Incorrect code attempt. Try again.\r\n" := by
  obtain ⟨as, n, al, il, bl⟩ := s
  obtain ⟨e, g, t, a, b, c, d⟩ := i
  simp only at h
  by_cases hn : n < 5
  · cases a <;> cases b <;> cases c <;> cases d <;> cases e <;> cases as <;> cases il <;>
      simp +decide [alarmDeactivationUpdate, hn] at h ⊢
  · simp +decide [alarmDeactivationUpdate, hn]

/-- Witness for C11: Armed at counter 2 with the incorrect-code LED still on,
enter pressed with the valid code. -/
theorem no_evaluation_outside_guard_witness :
    (alarmDeactivationUpdate { idle with enterButton := true, aButton := true, bButton := true }
        ⟨true, 2, true, true, false⟩).1.alarmState = true ∧
    (alarmDeactivationUpdate { idle with enterButton := true, aButton := true, bButton := true }
        ⟨true, 2, true, true, false⟩).1.numberOfIncorrectCodes = 2 ∧
    ∀ w ∈ (alarmDeactivationUpdate
        { idle with enterButton := true, aButton := true, bButton := true }
        ⟨true, 2, true, true, false⟩).2,
      w.buffer ≠ "Alarm deactivated successfully.\r\n" ∧
      w.buffer ≠ "Incorrect code attempt. Try again.\r\n" :=
  no_evaluation_outside_guard ⟨true, 2, true, true, false⟩
    { idle with enterButton := true, aButton := true, bButton := true }
    (Or.inr (Or.inr rfl))

/-! ## Command interpreter -/

/-- C12: for every state, `uartTask` receiving the byte `'1'` issues the
"The alarm is activated." write if and only if `alarmState` is Armed, and
otherwise the "The alarm is not activated." write; the bytes sent are that
message followed by the literal's NUL; it changes no state. -/
theorem query_reports_alarmState (s : System) (i : Inputs) :
    (uartTask (some '1') i s).1 = s ∧
    ((uartTask (some '1') i s).2 = [⟨"The alarm is activated.\r\n", 26⟩]
      ↔ s.alarmState = true) ∧
    ((uartTask (some '1') i s).2 = [⟨"The alarm is not activated.\r\n", 30⟩]
      ↔ s.alarmState = false) ∧
    (uartTask (some '1') i s).2.map UartWrite.transmitted =
      [some ((if s.alarmState = true then "The alarm is activated.\r\n"
              else "The alarm is not activated.\r\n").toList ++ [Char.ofNat 0])] := by
  cases hs : s.alarmState
  · have hout : (uartTask (some '1') i s).2 = [⟨"The alarm is not activated.\r\n", 30⟩] := by
      simp [uartTask, hs]
    refine ⟨by simp [uartTask, hs], ?_, ?_, ?_⟩ <;> rw [hout] <;> decide
  · have hout : (uartTask (some '1') i s).2 = [⟨"The alarm is activated.\r\n", 26⟩] := by
      simp [uartTask, hs]
    refine ⟨by simp [uartTask, hs], ?_, ?_, ?_⟩ <;> rw [hout] <;> decide

/-- C13: for every state and inputs, `uartTask` leaves the whole state
unchanged whenever the received byte is not `'r'`; it issues the help listing
(the header and the four command lines written by `availableCommands`, each
text sent in full) exactly when the byte is none of `'1'`, `'2'`, `'3'`, `'r'`;
with no byte available it issues nothing and changes nothing. -/
theorem uartTask_frame_and_help (s : System) (i : Inputs) :
    (∀ c : Char, c ≠ 'r' → (uartTask (some c) i s).1 = s) ∧
    (∀ c : Char,
      (uartTask (some c) i s).2 =
          [⟨"Available commands:\r\n", 21⟩,
           ⟨"Press '1' to get the alarm state\r\n", 36⟩,
           ⟨"Press '2' to get the gas detector state\r\n", 42⟩,
           ⟨"Press '3' to get the over-temperature detector state\r\n", 58⟩,
           ⟨"Press 'r' to reset the system\r\n", 32⟩] ↔
        (c ≠ '1' ∧ c ≠ '2' ∧ c ≠ '3' ∧ c ≠ 'r')) ∧
    (∀ c : Char, c ≠ '1' → c ≠ '2' → c ≠ '3' → c ≠ 'r' →
      ∀ w ∈ (uartTask (some c) i s).2, w.buffer.length ≤ w.size) ∧
    uartTask none i s = (s, []) := by
  have hiff : ∀ c : Char,
      (uartTask (some c) i s).2 =
          [⟨"Available commands:\r\n", 21⟩,
           ⟨"Press '1' to get the alarm state\r\n", 36⟩,
           ⟨"Press '2' to get the gas detector state\r\n", 42⟩,
           ⟨"Press '3' to get the over-temperature detector state\r\n", 58⟩,
           ⟨"Press 'r' to reset the system\r\n", 32⟩] ↔
        (c ≠ '1' ∧ c ≠ '2' ∧ c ≠ '3' ∧ c ≠ 'r') := by
    intro c
    unfold uartTask
    by_cases h1 : c = '1'
    · subst h1
      cases s.alarmState <;> simp +decide
    by_cases h2 : c = '2'
    · subst h2
      cases i.gasDetector <;> simp +decide
    by_cases h3 : c = '3'
    · subst h3
      cases i.overTempDetector <;> simp +decide
    by_cases hr : c = 'r'
    · subst hr
      simp +decide
    simp [h1, h2, h3, hr, availableCommands]
  refine ⟨fun c hc => (uartTask_no_reset (some c) i s (by simpa using hc)).1, hiff, ?_, rfl⟩
  intro c h1 h2 h3 hr
  rw [(hiff c).2 ⟨h1, h2, h3, hr⟩]
  decide

/-! ## Periodic reporter -/

theorem runSteps_drop_reporters (steps : List Step) (s : System) :
    (runSteps steps s).1 = (runSteps (steps.filter (fun st => !st.isReporter)) s).1 := by
  induction steps generalizing s with
  | nil => rfl
  | cons st rest ih =>
    cases st with
    | reporter i => exact ih s
    | activation i => exact ih _
    | deactivation i => exact ih _
    | uart rx i => exact ih _

/-- C14: for every state and sensor reading, `sendContinuousData` leaves
`alarmState`, `numberOfIncorrectCodes` and all three LEDs unchanged; hence a
sequence of calls with reporter firings at any points between them reaches the
same state as the sequence with the firings removed. -/
theorem reporter_is_read_only (s : System) :
    (∀ i : Inputs, (sendContinuousData i s).1 = s) ∧
    (∀ steps : List Step,
      (runSteps steps s).1 = (runSteps (steps.filter (fun st => !st.isReporter)) s).1) :=
  ⟨fun _ => rfl, fun steps => runSteps_drop_reporters steps s⟩

/-- C16: for every state and sensor reading, one firing of `sendContinuousData`
issues, in this order: the terminal-clear sequence (the clear-line write, which
sends ESC `[2K`, and the new-line write of lines 181-182), the alarm status
line (activated iff `alarmState` is Armed), the gas status line followed by the
gas warning line exactly when the gas input is high, and the over-temperature
status line followed by the temperature warning line exactly when that input
is high; all three sections appear on every firing, each line's text sent in
full. -/
theorem reporter_sections_in_order (s : System) (i : Inputs) :
    (sendContinuousData i s).2 =
      [⟨"\x1b[2K\r", 4⟩, ⟨"\r\n", 2⟩]
      ++ [if s.alarmState = true then ⟨"The alarm is activated.\r\n", 26⟩
          else ⟨"The alarm is not activated.\r\n", 30⟩]
      ++ (if i.gasDetector = true then
            [⟨"Gas detector is triggered.\r\n", 30⟩, ⟨"WARNING: GAS LEVEL TOO HIGH!\r\n", 32⟩]
          else [⟨"Gas detector is not triggered.\r\n", 32⟩])
      ++ (if i.overTempDetector = true then
            [⟨"Over temperature detector is triggered.\r\n", 43⟩,
             ⟨"WARNING: TEMPERATURE IS TOO HIGH!\r\n", 37⟩]
          else [⟨"Over temperature detector is not triggered.\r\n", 47⟩]) ∧
    (sendContinuousData i s).2.head?.map UartWrite.transmitted
      = some (some [Char.ofNat 27, '[', '2', 'K']) ∧
    (∀ w ∈ (sendContinuousData i s).2.tail, w.buffer.length ≤ w.size) := by
  cases hs : s.alarmState <;> cases hg : i.gasDetector <;> cases ht : i.overTempDetector <;>
    refine ⟨?_, ?_, ?_⟩ <;>
    (simp only [sendContinuousData, hs, hg, ht]; decide)

/-! ## Bytes on the serial line -/

/-- C15 fails on the code: on a successful disarm (Armed, counter 0, LED off,
enter with the valid code) the write passes 32 for a literal of 33 characters,
so the bytes sent are the text and CR without the final LF. -/
theorem disarm_write_drops_line_feed :
    (alarmDeactivationUpdate { idle with enterButton := true, aButton := true, bButton := true }
        ⟨true, 0, true, false, false⟩).1.alarmState = false ∧
    (alarmDeactivationUpdate { idle with enterButton := true, aButton := true, bButton := true }
        ⟨true, 0, true, false, false⟩).2.map UartWrite.transmitted
      = [some "Alarm deactivated successfully.\r".toList] ∧
    (alarmDeactivationUpdate { idle with enterButton := true, aButton := true, bButton := true }
        ⟨true, 0, true, false, false⟩).2.map UartWrite.transmitted
      ≠ [some "Alarm deactivated successfully.\r\n".toList] := by
  decide

/-- C17 fails on the code.  The failed-attempt write passes 39 for a literal of
36 characters and so reads past the literal's array; the interpreter passes 28
and the reporter 30 for the same gas status literal; the help listing and the
reporter pass counts that differ from the literal lengths (pairs are
`(size, length)`). -/
theorem write_sizes_differ_from_literals :
    (alarmDeactivationUpdate { idle with enterButton := true }
        ⟨true, 0, true, false, false⟩).2.map (fun w => (w.size, w.buffer.length, w.transmitted))
      = [(39, 36, none)] ∧
    (uartTask (some '2') { idle with gasDetector := true }
        ⟨true, 0, true, false, false⟩).2.map (fun w => (w.buffer, w.size))
      = [("Gas detector is triggered.\r\n", 28)] ∧
    (sendContinuousData { idle with gasDetector := true }
        ⟨true, 0, true, false, false⟩).2.map (fun w => (w.buffer, w.size))
      = [("\x1b[2K\r", 4), ("\r\n", 2), ("The alarm is activated.\r\n", 26),
         ("Gas detector is triggered.\r\n", 30), ("WARNING: GAS LEVEL TOO HIGH!\r\n", 32),
         ("Over temperature detector is not triggered.\r\n", 47)] ∧
    (sendContinuousData { idle with gasDetector := true }
        ⟨true, 0, true, false, false⟩).2.map (fun w => (w.size, w.buffer.length))
      = [(4, 5), (2, 2), (26, 25), (30, 28), (32, 30), (47, 45)] ∧
    (uartTask (some '2') { idle with gasDetector := true }
        ⟨true, 0, true, false, false⟩).2.map UartWrite.transmitted
      = [some "Gas detector is triggered.\r\n".toList] ∧
    (sendContinuousData { idle with gasDetector := true }
        ⟨true, 0, true, false, false⟩).2.map UartWrite.transmitted
      = [some "\x1b[2K".toList, some "\r\n".toList,
         some ("The alarm is activated.\r\n".toList ++ [Char.ofNat 0]), none, none, none] ∧
    availableCommands.map (fun w => (w.size, w.buffer.length))
      = [(21, 21), (36, 34), (42, 41), (58, 54), (32, 31)] := by
  decide

/-! ## LED invariants -/

/-- C18: in every reachable state, `numberOfIncorrectCodes = 5` implies the
incorrect-code LED is on, and the system-blocked LED on implies
`numberOfIncorrectCodes = 5`; so no reachable state is Armed with the
incorrect-code LED off and the counter at 5 or more. -/
theorem threshold_led_invariant (s : System) (hr : Reachable s) :
    (s.numberOfIncorrectCodes = 5 → s.incorrectCodeLed = true) ∧
    (s.systemBlockedLed = true → s.numberOfIncorrectCodes = 5) ∧
    ¬ (s.alarmState = true ∧ s.incorrectCodeLed = false ∧ 5 ≤ s.numberOfIncorrectCodes) := by
  obtain ⟨_, _, hl, hb⟩ := inv_of_reachable s hr
  refine ⟨fun h => hl (by omega), hb, ?_⟩
  rintro ⟨_, hoff, hge⟩
  have := hl hge
  rw [hoff] at this
  exact absurd this (by decide)

/-- Witness for C18: the state after arming and five failed attempts, each
cleared by holding all four digits, with one more deactivation call. -/
theorem threshold_led_invariant_witness :
    (runSteps lockoutSteps initialSystem).1 = ⟨true, 5, true, true, true⟩ ∧
    ((runSteps lockoutSteps initialSystem).1.numberOfIncorrectCodes = 5 →
      (runSteps lockoutSteps initialSystem).1.incorrectCodeLed = true) ∧
    ((runSteps lockoutSteps initialSystem).1.systemBlockedLed = true →
      (runSteps lockoutSteps initialSystem).1.numberOfIncorrectCodes = 5) ∧
    ¬ ((runSteps lockoutSteps initialSystem).1.alarmState = true ∧
        (runSteps lockoutSteps initialSystem).1.incorrectCodeLed = false ∧
        5 ≤ (runSteps lockoutSteps initialSystem).1.numberOfIncorrectCodes) :=
  ⟨by decide, threshold_led_invariant _ ⟨lockoutSteps, rfl⟩⟩

/-- C19: for every state and inputs, after one loop body the alarm LED equals
`alarmState`, unless `alarmDeactivationUpdate` disarmed during that body (which
happens exactly on enter with the valid code while Armed, counter below 5 and
incorrect-code LED off) and no `'r'` byte followed in the same body; in that
case the alarm LED is still on while `alarmState` is Disarmed. -/
theorem alarmLed_after_loop_body (s : System) (i : Inputs) (rx : Option Char) :
    (if (alarmActivationUpdate i s).1.alarmState = true ∧
        (alarmDeactivationUpdate i (alarmActivationUpdate i s).1).1.alarmState = false ∧
        rx ≠ some 'r'
      then (mainLoopIteration rx i s).1.alarmLed = true ∧
        (mainLoopIteration rx i s).1.alarmState = false
      else (mainLoopIteration rx i s).1.alarmLed = (mainLoopIteration rx i s).1.alarmState) ∧
    (((alarmActivationUpdate i s).1.alarmState = true ∧
        (alarmDeactivationUpdate i (alarmActivationUpdate i s).1).1.alarmState = false) ↔
      ((alarmActivationUpdate i s).1.alarmState = true ∧ s.numberOfIncorrectCodes < 5 ∧
        s.incorrectCodeLed = false ∧ i.enterButton = true ∧ i.aButton = true ∧
        i.bButton = true ∧ i.cButton = false ∧ i.dButton = false)) := by
  obtain ⟨as, n, al, il, bl⟩ := s
  obtain ⟨e, g, t, a, b, c, d⟩ := i
  have hact : (alarmActivationUpdate ⟨e, g, t, a, b, c, d⟩ ⟨as, n, al, il, bl⟩).1
      = ⟨g || t || as, n, g || t || as, il, bl⟩ := by
    cases g <;> cases t <;> simp [alarmActivationUpdate]
  simp only [mainLoopIteration]
  rw [hact]
  generalize (g || t || as) = arm
  by_cases hrx : rx = some 'r'
  · subst hrx
    by_cases hn : n < 5
    · cases a <;> cases b <;> cases c <;> cases d <;> cases e <;> cases arm <;> cases il <;>
        simp [uartTask, resetSystem, alarmDeactivationUpdate, hn]
    · simp [uartTask, resetSystem, alarmDeactivationUpdate, hn]
  · have hu := fun x => (uartTask_no_reset rx ⟨e, g, t, a, b, c, d⟩ x hrx).1
    simp only [hu]
    by_cases hn : n < 5
    · cases a <;> cases b <;> cases c <;> cases d <;> cases e <;> cases arm <;> cases il <;>
        simp [alarmDeactivationUpdate, hn, hrx]
    · simp [alarmDeactivationUpdate, hn, hrx]

end AlarmSystem
